import Mathlib

/-!
Shallow embedding of the gNMI-to-NATS telemetry publisher
(src/cmd/publisher/publisher.go) and proofs of the behavioural claims
about its delivery loop, bus client and setup/shutdown paths.

The event loop of collectTelemetry is modelled as a function over the
sequence of events consumed from its three-way select (subscription
response, subscription error, context cancellation); the external
Marshal encoder and the per-call NATS publish outcome are oracle
parameters.  sendToNats is modelled with an explicit time budget so the
single context-deadline check between connect and publish is visible.
-/

namespace GnmiNats

/-- Mirror of the Config struct read from config.yaml. -/
structure Config where
  name : String
  address : String
  insecure : Bool
  skipVerify : Bool
  gzip : Bool
  natsURL : String
  topic : String
  xpath : String
  encoding : String
  listMode : String
  subscriptionMode : String
  sampleInterval : Nat
deriving DecidableEq

/-- Mirror of TelemetryTarget: the inner Target pointer may be nil,
which Option models; the other fields do not affect the claims. -/
structure TelemetryTarget where
  target : Option Unit
deriving DecidableEq

/-- One event consumed by the select loop of collectTelemetry:
a subscription response carrying an opaque payload, an entry on the
subscription error channel, or the context becoming done. -/
inductive LoopEvent
  | response (payload : String)
  | subErr (name cause : String)
  | ctxDone
deriving DecidableEq

/-- Observable actions of collectTelemetry, in program order:
log lines, the call to sendToNats (with the bus URL, topic, encoded
payload and the seconds of its per-call context timeout), the GNMI
client creation, the subscribe call and the stop request. -/
inductive Action
  | logSerErr (msg : String)
  | logEvent (name : String)
  | logDebug (out : String)
  | publish (natsURL topic payload : String) (timeoutSecs : Nat)
  | logPubErr (msg : String)
  | logSubErr (name cause : String)
  | createClient
  | subscribeCall (name : String)
  | stopSubscription (name : String)
deriving DecidableEq

/-- Body of the subRspChan case of the select: Marshal the response
(oracle encode); on error log and continue; on a non-empty result log
two lines and call sendToNats under a 5-second context timeout, logging
a publish error if the oracle pub reports one for this (k-th) publish;
an empty result is skipped silently.  Returns the emitted actions and
the updated publish counter. -/
def handleResponse (cfg : Config) (encode : String → Except String String)
    (pub : Nat → Option String) (k : Nat) (payload : String) :
    List Action × Nat :=
  match encode payload with
  | Except.error e => ([Action.logSerErr e], k)
  | Except.ok out =>
    if 0 < out.length then
      ([Action.logEvent cfg.name, Action.logDebug out,
        Action.publish cfg.natsURL cfg.topic out 5] ++
        (match pub k with
          | some e => [Action.logPubErr e]
          | none => []), k + 1)
    else ([], k)

/-- Whether the loop has returned (case ctxDone of the select) or is
still waiting for further events. -/
inductive LoopResult
  | stopped
  | running
deriving DecidableEq

/-- The for/select loop of collectTelemetry, folded over the sequence of
events it consumes.  A ctxDone event makes the loop return at once,
leaving later events unconsumed; responses and subscription errors are
handled and the loop continues.  An exhausted event list means the loop
is still blocked at the select. -/
def collectLoop (cfg : Config) (encode : String → Except String String)
    (pub : Nat → Option String) :
    List LoopEvent → Nat → List Action × LoopResult
  | [], _ => ([], LoopResult.running)
  | LoopEvent.ctxDone :: _, _ => ([], LoopResult.stopped)
  | LoopEvent.subErr n c :: rest, k =>
      let r := collectLoop cfg encode pub rest k
      (Action.logSubErr n c :: r.fst, r.snd)
  | LoopEvent.response p :: rest, k =>
      let h := handleResponse cfg encode pub k p
      let r := collectLoop cfg encode pub rest h.snd
      (h.fst ++ r.fst, r.snd)

/-- The publish calls recorded in a trace, in order. -/
def publishes (tr : List Action) : List (String × String × String × Nat) :=
  tr.filterMap fun a =>
    match a with
    | Action.publish u t p d => some (u, t, p, d)
    | _ => none

/-- The payloads the loop will publish: responses arriving before the
first ctxDone whose encoding succeeds with a non-empty result. -/
def publishableUpdates (encode : String → Except String String)
    (events : List LoopEvent) : List String :=
  (events.takeWhile fun e => e ≠ LoopEvent.ctxDone).filterMap fun e =>
    match e with
    | LoopEvent.response p =>
      match encode p with
      | Except.ok out => if 0 < out.length then some out else none
      | Except.error _ => none
    | _ => none

/-- Observable actions of sendToNats: opening and closing the NATS
connection, the publish attempt, and the success log line. -/
inductive NatsAction
  | connOpen (url : String)
  | connClose
  | pubAttempt (subject payload : String)
  | logSent (subject : String)
deriving DecidableEq

/-- Environment of one sendToNats call: how long the transport takes to
establish the connection, whether it fails outright, how long the
publish takes, and whether the publish errors. -/
structure NatsEnv where
  connectDuration : Nat
  connectFails : Bool
  publishDuration : Nat
  publishErr : Option String
deriving DecidableEq

/-- The fixed connection timeout passed to nats.Connect
(nats.Timeout of 5 seconds), independent of the callers context. -/
def connectTimeout : Nat := 5

/-- Time spent inside nats.Connect: the transport duration, cut off at
the connection timeout. -/
def connElapsed (env : NatsEnv) : Nat :=
  min env.connectDuration connectTimeout

/-- sendToNats modelled with explicit time: nats.Connect runs under its
own 5-second timeout (a slow transport makes it fail, not the callers
deadline); on success the deferred nc.Close is emitted on every return
path.  The callers context deadline is consulted exactly once, in the
select between connect and publish: if it has already passed the call
returns a cancellation error without publishing.  Otherwise the publish
is attempted with no deadline of its own.  Returns the trace, the error
result (none on success) and the total elapsed time. -/
def sendToNats (env : NatsEnv) (deadline : Nat)
    (natsURL telemetryData subject : String) :
    List NatsAction × Option String × Nat :=
  if env.connectFails ∨ connectTimeout < env.connectDuration then
    ([], some "error connecting to NATS", connElapsed env)
  else if deadline ≤ connElapsed env then
    ([NatsAction.connOpen natsURL, NatsAction.connClose],
      some "context cancelled before sending message", connElapsed env)
  else
    match env.publishErr with
    | some _ =>
      ([NatsAction.connOpen natsURL,
        NatsAction.pubAttempt subject telemetryData, NatsAction.connClose],
        some "failed to send message to NATS",
        connElapsed env + env.publishDuration)
    | none =>
      ([NatsAction.connOpen natsURL,
        NatsAction.pubAttempt subject telemetryData,
        NatsAction.logSent subject, NatsAction.connClose],
        none, connElapsed env + env.publishDuration)

/-- Number of connections opened in a sendToNats trace. -/
def opensCount (tr : List NatsAction) : Nat :=
  (tr.filter fun a =>
    match a with
    | NatsAction.connOpen _ => true
    | _ => false).length

/-- Number of connections closed in a sendToNats trace. -/
def closesCount (tr : List NatsAction) : Nat :=
  (tr.filter fun a =>
    match a with
    | NatsAction.connClose => true
    | _ => false).length

/-- Outcomes of the setup steps of one run: the env-file load, the
config read, target creation (api.NewTarget), GNMI client creation and
the subscribe-request build, plus the events the loop then consumes. -/
structure SetupEnv where
  dotenvErr : Option String
  configRes : Except String Config
  newTargetErr : Option String
  createClientErr : Option String
  subReqErr : Option String
  events : List LoopEvent

/-- collectTelemetry: nil guard on the target, CreateGNMIClient,
NewSubscribeRequest, then the subscribe call and the select loop.
Each failing step returns its wrapped error; the loop returns ok. -/
def collectTelemetry (cfg : Config) (encode : String → Except String String)
    (pub : Nat → Option String) (env : SetupEnv)
    (tt : Option TelemetryTarget) : List Action × Except String LoopResult :=
  match tt with
  | none =>
    ([], Except.error
      "telemetry target or its internal target is not properly initialized")
  | some t =>
    match t.target with
    | none =>
      ([], Except.error
        "telemetry target or its internal target is not properly initialized")
    | some _ =>
      match env.createClientErr with
      | some e =>
        ([Action.createClient],
          Except.error ("error creating GNMI client: " ++ e))
      | none =>
        match env.subReqErr with
        | some e =>
          ([Action.createClient],
            Except.error ("error creating subscribe request: " ++ e))
        | none =>
          let r := collectLoop cfg encode pub env.events 0
          (Action.createClient :: Action.subscribeCall "sub1" :: r.fst,
            Except.ok r.snd)

/-- How the process run ends: log.Fatalf, a normal return from main, or
main still blocked inside the select loop. -/
inductive ProcOutcome
  | fatalExit (msg : String)
  | normalExit
  | blocked
deriving DecidableEq

/-- main: godotenv.Load, readConfig and NewTelemetryTarget each exit
through log.Fatalf on failure; otherwise collectTelemetry runs with a
properly initialized target and its returned error value is discarded,
so main returns normally whenever the loop returns or errors out. -/
def mainRun (encode : String → Except String String)
    (pub : Nat → Option String) (env : SetupEnv) :
    List Action × ProcOutcome :=
  match env.dotenvErr with
  | some e => ([], ProcOutcome.fatalExit ("Error loading .env file: " ++ e))
  | none =>
    match env.configRes with
    | Except.error e =>
      ([], ProcOutcome.fatalExit ("Could not read config: " ++ e))
    | Except.ok cfg =>
      match env.newTargetErr with
      | some e =>
        ([], ProcOutcome.fatalExit
          ("Failed to create telemetry target: error creating target: " ++ e))
      | none =>
        let r := collectTelemetry cfg encode pub env
          (some (TelemetryTarget.mk (some ())))
        (r.fst,
          match r.snd with
          | Except.ok LoopResult.running => ProcOutcome.blocked
          | _ => ProcOutcome.normalExit)

/-- A reason for the stop goroutine of collectTelemetry to wake up:
an OS termination signal or cancellation of the root context. -/
inductive StopTrigger
  | osSignal
  | ctxCancelled
deriving DecidableEq

/-- The stop goroutine of collectTelemetry: it blocks in a select on
the signal channel and ctx.Done, and on the first trigger calls
StopSubscription once and terminates, so later triggers are never
observed by it. -/
def stopHandler (triggers : List StopTrigger) : List Action :=
  match triggers with
  | [] => []
  | _ :: _ => [Action.stopSubscription "sub1"]

/-- Number of StopSubscription calls in a trace. -/
def stopCount (tr : List Action) : Nat :=
  (tr.filter fun a =>
    match a with
    | Action.stopSubscription _ => true
    | _ => false).length

/-- A concrete configuration used by witnesses. -/
def cfg0 : Config :=
  { name := "router1", address := "10.0.0.1:6030", insecure := true,
    skipVerify := true, gzip := false,
    natsURL := "nats://127.0.0.1:4222", topic := "interface-counters",
    xpath := "/interfaces", encoding := "json_ietf", listMode := "stream",
    subscriptionMode := "sample", sampleInterval := 10 }

/-- A concrete encoder that always succeeds with the payload itself. -/
def encodeOk : String → Except String String :=
  fun p => Except.ok p

/-- A concrete encoder that always fails. -/
def encodeErr : String → Except String String :=
  fun _ => Except.error "marshal error"

/-- A concrete encoder that succeeds with an empty output. -/
def encodeEmpty : String → Except String String :=
  fun _ => Except.ok ""

/-- A concrete publish oracle on which every publish succeeds. -/
def pubOk : Nat → Option String :=
  fun _ => none

/-- A concrete publish oracle on which every publish fails. -/
def pubFail : Nat → Option String :=
  fun _ => some "nats publish refused"

/-- A setup environment in which every setup step succeeds and the loop
consumes one stop event. -/
def envRun : SetupEnv :=
  { dotenvErr := none, configRes := Except.ok cfg0, newTargetErr := none,
    createClientErr := none, subReqErr := none,
    events := [LoopEvent.ctxDone] }

/-- A setup environment in which GNMI client creation fails. -/
def envClientFail : SetupEnv :=
  { dotenvErr := none, configRes := Except.ok cfg0, newTargetErr := none,
    createClientErr := some "connection refused", subReqErr := none,
    events := [] }

/-- A setup environment in which api.NewTarget fails. -/
def envTargetFail : SetupEnv :=
  { dotenvErr := none, configRes := Except.ok cfg0,
    newTargetErr := some "bad target", createClientErr := none,
    subReqErr := none, events := [] }

/-- A sendToNats environment whose connect takes 1 unit and whose
publish takes 100 units and succeeds. -/
def envSlowPub : NatsEnv :=
  { connectDuration := 1, connectFails := false,
    publishDuration := 100, publishErr := none }

/-- A sendToNats environment whose connect takes 3 units, with an
instant successful publish. -/
def envSlowConn : NatsEnv :=
  { connectDuration := 3, connectFails := false,
    publishDuration := 0, publishErr := none }

theorem publishes_append (a b : List Action) :
    publishes (a ++ b) = publishes a ++ publishes b :=
  List.filterMap_append a b _

theorem publishes_handleResponse (cfg : Config)
    (encode : String → Except String String) (pub : Nat → Option String)
    (k : Nat) (p : String) :
    publishes (handleResponse cfg encode pub k p).fst =
      (match encode p with
        | Except.ok out =>
          if 0 < out.length then [(cfg.natsURL, cfg.topic, out, 5)] else []
        | Except.error _ => []) := by
  unfold handleResponse
  cases h : encode p with
  | error e => simp [publishes]
  | ok out =>
    by_cases hl : 0 < out.length
    · cases hp : pub k <;> simp [hl, hp, publishes]
    · simp [hl, publishes]

theorem publishableUpdates_cons_subErr
    (encode : String → Except String String) (n c : String)
    (rest : List LoopEvent) :
    publishableUpdates encode (LoopEvent.subErr n c :: rest) =
      publishableUpdates encode rest := by
  simp [publishableUpdates, List.takeWhile]

theorem publishableUpdates_cons_response
    (encode : String → Except String String) (p : String)
    (rest : List LoopEvent) :
    publishableUpdates encode (LoopEvent.response p :: rest) =
      (match encode p with
        | Except.ok out => if 0 < out.length then [out] else []
        | Except.error _ => []) ++ publishableUpdates encode rest := by
  simp only [publishableUpdates, List.takeWhile]
  cases h : encode p with
  | error e => simp [List.filterMap_cons, h]
  | ok out =>
    by_cases hl : 0 < out.length
    · simp [List.filterMap_cons, h, hl]
    · simp [List.filterMap_cons, h, hl]

theorem publishes_collectLoop (cfg : Config)
    (encode : String → Except String String) (pub : Nat → Option String)
    (events : List LoopEvent) (k : Nat) :
    publishes (collectLoop cfg encode pub events k).fst =
      (publishableUpdates encode events).map
        (fun out => (cfg.natsURL, cfg.topic, out, 5)) := by
  induction events generalizing k with
  | nil => simp [collectLoop, publishes, publishableUpdates]
  | cons e rest ih =>
    cases e with
    | ctxDone => simp [collectLoop, publishes, publishableUpdates]
    | subErr n c =>
      have h1 : publishes
          (collectLoop cfg encode pub (LoopEvent.subErr n c :: rest) k).fst =
          publishes (collectLoop cfg encode pub rest k).fst := by
        simp [collectLoop, publishes]
      rw [h1, ih, publishableUpdates_cons_subErr]
    | response p =>
      have h1 : (collectLoop cfg encode pub (LoopEvent.response p :: rest) k).fst =
          (handleResponse cfg encode pub k p).fst ++
            (collectLoop cfg encode pub rest
              (handleResponse cfg encode pub k p).snd).fst := rfl
      rw [h1, publishes_append, publishes_handleResponse, ih,
        publishableUpdates_cons_response, List.map_append]
      cases h : encode p with
      | error e => simp
      | ok out =>
        by_cases hl : 0 < out.length
        · simp [hl]
        · simp [hl]

theorem collectLoop_stopped_iff (cfg : Config)
    (encode : String → Except String String) (pub : Nat → Option String)
    (events : List LoopEvent) (k : Nat) :
    (collectLoop cfg encode pub events k).snd = LoopResult.stopped ↔
      LoopEvent.ctxDone ∈ events := by
  induction events generalizing k with
  | nil => simp [collectLoop]
  | cons e rest ih =>
    cases e with
    | ctxDone => simp [collectLoop]
    | subErr n c => simp [collectLoop, ih k]
    | response p => simp [collectLoop, ih]

/-- Claim C1: the delivery loop returns exactly when the stop signal
(context cancellation) is observed — no encoding failure, publish
failure or subscription error terminates it — and the sequence of
publish calls it issues does not depend on the publish outcomes, so
after a failed publish every later Update is still handled and a
publish attempted for it. -/
theorem claim1_error_containment (cfg : Config)
    (encode : String → Except String String)
    (pubA pubB : Nat → Option String)
    (events : List LoopEvent) (k : Nat) :
    ((collectLoop cfg encode pubA events k).snd = LoopResult.stopped ↔
      LoopEvent.ctxDone ∈ events) ∧
    publishes (collectLoop cfg encode pubA events k).fst =
      publishes (collectLoop cfg encode pubB events k).fst := by
  refine ⟨collectLoop_stopped_iff cfg encode pubA events k, ?_⟩
  rw [publishes_collectLoop, publishes_collectLoop]

/-- Claim C2: the publish calls issued by the delivery loop are exactly
the encodable, non-empty Updates delivered before the stop event, in
their delivery order, each directed at the configured bus address and
topic — so publishes are never reordered relative to Update order. -/
theorem claim2_order_preservation (cfg : Config)
    (encode : String → Except String String) (pub : Nat → Option String)
    (events : List LoopEvent) (k : Nat) :
    publishes (collectLoop cfg encode pub events k).fst =
      (publishableUpdates encode events).map
        (fun out => (cfg.natsURL, cfg.topic, out, 5)) :=
  publishes_collectLoop cfg encode pub events k

/-- Claim C3 counterexample: the 5-unit deadline does not bound the
whole sendToNats call.  With a 1-unit connect and a 100-unit publish
the call passes its single deadline check and returns success at time
101, far beyond the 5-unit bound and without any Timeout error. -/
theorem claim3_counterexample :
    sendToNats envSlowPub 5 "nats://127.0.0.1:4222" "data" "topic" =
      ([NatsAction.connOpen "nats://127.0.0.1:4222",
        NatsAction.pubAttempt "topic" "data", NatsAction.logSent "topic",
        NatsAction.connClose], none, 101) ∧ 5 < 101 := by
  exact ⟨by decide, by decide⟩

/-- Claim C3 (amended): nats.Connect is bounded by its own fixed
5-second transport timeout, and the caller deadline is observed at
exactly one point, between connect and publish: if it has passed by
then, the call returns a cancellation error without attempting the
publish and with the connection closed; the publish phase itself is not
bounded by the deadline, so the call may return after the deadline. -/
theorem claim3_deadline_checked_once (env : NatsEnv) (deadline : Nat)
    (url data subject : String)
    (hc : env.connectFails = false)
    (hslow : env.connectDuration ≤ connectTimeout)
    (hpast : deadline ≤ connElapsed env) :
    sendToNats env deadline url data subject =
      ([NatsAction.connOpen url, NatsAction.connClose],
        some "context cancelled before sending message", connElapsed env) ∧
    connElapsed env ≤ connectTimeout := by
  have hno : ¬(env.connectFails = true ∨ connectTimeout < env.connectDuration) := by
    rintro (h | h)
    · rw [hc] at h
      exact Bool.false_ne_true h
    · exact absurd h (not_lt.mpr hslow)
  constructor
  · unfold sendToNats
    rw [if_neg hno, if_pos hpast]
  · exact min_le_right _ _

theorem claim3_deadline_checked_once_witness :
    sendToNats envSlowConn 2 "nats://127.0.0.1:4222" "data" "topic" =
      ([NatsAction.connOpen "nats://127.0.0.1:4222", NatsAction.connClose],
        some "context cancelled before sending message",
        connElapsed envSlowConn) ∧
    connElapsed envSlowConn ≤ connectTimeout :=
  claim3_deadline_checked_once envSlowConn 2 "nats://127.0.0.1:4222"
    "data" "topic" rfl (by decide) (by decide)

/-- Claim C4 counterexample: when GNMI client creation fails the error
is surfaced to main, but main discards the return value of
collectTelemetry, so the process exits normally, not through the fatal
path the claim asserts. -/
theorem claim4_counterexample :
    envClientFail.createClientErr = some "connection refused" ∧
    (collectTelemetry cfg0 encodeOk pubOk envClientFail
        (some (TelemetryTarget.mk (some ())))).snd =
      Except.error "error creating GNMI client: connection refused" ∧
    (mainRun encodeOk pubOk envClientFail).snd = ProcOutcome.normalExit := by
  exact ⟨rfl, rfl, rfl⟩

/-- Claim C4 (amended): a target-creation failure makes main exit
through the fatal path before any client creation, subscribe or
publish; a GNMI-client-creation failure makes collectTelemetry return
the wrapped error without ever subscribing or publishing, but main
ignores that error and exits normally rather than via the fatal path. -/
theorem claim4_fatal_setup (encode : String → Except String String)
    (pub : Nat → Option String) (env : SetupEnv) (cfg : Config)
    (e1 e2 : String)
    (h1 : env.dotenvErr = none) (h2 : env.configRes = Except.ok cfg) :
    (env.newTargetErr = some e1 →
      mainRun encode pub env =
        ([], ProcOutcome.fatalExit
          ("Failed to create telemetry target: error creating target: "
            ++ e1))) ∧
    (env.newTargetErr = none → env.createClientErr = some e2 →
      mainRun encode pub env =
        ([Action.createClient], ProcOutcome.normalExit) ∧
      (collectTelemetry cfg encode pub env
          (some (TelemetryTarget.mk (some ())))).snd =
        Except.error ("error creating GNMI client: " ++ e2)) := by
  constructor
  · intro h3
    simp [mainRun, h1, h2, h3]
  · intro h3 h4
    constructor
    · simp [mainRun, collectTelemetry, h1, h2, h3, h4]
    · simp [collectTelemetry, h4]

theorem claim4_fatal_setup_witness :
    mainRun encodeOk pubOk envTargetFail =
      ([], ProcOutcome.fatalExit
        ("Failed to create telemetry target: error creating target: "
          ++ "bad target")) :=
  (claim4_fatal_setup encodeOk pubOk envTargetFail cfg0 "bad target"
    "connection refused" rfl rfl).1 rfl

/-- Claim C5: on every exit path of sendToNats — connect failure,
context cancelled, publish failure, success — the number of bus
connections opened equals the number closed, and whenever a connection
was opened the last action before returning is its close. -/
theorem claim5_connection_release (env : NatsEnv) (deadline : Nat)
    (url data subject : String) :
    opensCount (sendToNats env deadline url data subject).fst =
      closesCount (sendToNats env deadline url data subject).fst ∧
    ((sendToNats env deadline url data subject).fst = [] ∨
      (sendToNats env deadline url data subject).fst.getLast? =
        some NatsAction.connClose) := by
  unfold sendToNats
  by_cases h1 : env.connectFails = true ∨ connectTimeout < env.connectDuration
  · rw [if_pos h1]
    exact ⟨rfl, Or.inl rfl⟩
  · rw [if_neg h1]
    by_cases h2 : deadline ≤ connElapsed env
    · rw [if_pos h2]
      exact ⟨rfl, Or.inr rfl⟩
    · rw [if_neg h2]
      cases hp : env.publishErr with
      | some e => exact ⟨rfl, Or.inr rfl⟩
      | none => exact ⟨rfl, Or.inr rfl⟩

/-- Claim C6: however many termination signals or context cancellations
arrive, the stop goroutine requests StopSubscription exactly once (it
consumes only the first trigger), and a run whose setup succeeds and
whose loop observes the stop event makes main return normally. -/
theorem claim6_idempotent_stop (triggers : List StopTrigger)
    (encode : String → Except String String) (pub : Nat → Option String)
    (env : SetupEnv) (cfg : Config)
    (ht : triggers ≠ [])
    (h1 : env.dotenvErr = none) (h2 : env.configRes = Except.ok cfg)
    (h3 : env.newTargetErr = none) (h4 : env.createClientErr = none)
    (h5 : env.subReqErr = none) (h6 : LoopEvent.ctxDone ∈ env.events) :
    stopCount (stopHandler triggers) = 1 ∧
    (mainRun encode pub env).snd = ProcOutcome.normalExit := by
  constructor
  · cases triggers with
    | nil => exact absurd rfl ht
    | cons t ts => rfl
  · have hs : (collectLoop cfg encode pub env.events 0).snd =
        LoopResult.stopped :=
      (collectLoop_stopped_iff cfg encode pub env.events 0).mpr h6
    simp [mainRun, collectTelemetry, h1, h2, h3, h4, h5, hs]

theorem claim6_idempotent_stop_witness :
    stopCount (stopHandler [StopTrigger.osSignal, StopTrigger.osSignal]) = 1 ∧
    (mainRun encodeOk pubOk envRun).snd = ProcOutcome.normalExit :=
  claim6_idempotent_stop [StopTrigger.osSignal, StopTrigger.osSignal]
    encodeOk pubOk envRun cfg0 (by decide) rfl rfl rfl rfl rfl (by decide)

/-- Claim C7 counterexample: an Update can encode successfully yet
trigger no publish at all: with an encoder returning the empty string
the loop body emits no publish action, refuting the claim that every
successfully encoded Update leads to a publish call. -/
theorem claim7_counterexample :
    encodeEmpty "payload" = Except.ok "" ∧
    publishes (handleResponse cfg0 encodeEmpty pubOk 0 "payload").fst = [] ∧
    publishes (collectLoop cfg0 encodeEmpty pubOk
      [LoopEvent.response "payload"] 0).fst = [] := by
  exact ⟨rfl, by decide, by decide⟩

/-- Claim C7 (amended): an Update whose payload fails to encode is
logged and discarded with no publish attempted for it, and an Update
that encodes successfully to a non-empty output gets exactly one
publish call with the fixed 5-second per-call timeout against the
configured bus address and topic; an Update encoding to an empty
output is skipped without a publish. -/
theorem claim7_encoding_paths (cfg : Config)
    (encode : String → Except String String) (pub : Nat → Option String)
    (k : Nat) (p : String) :
    (∀ e, encode p = Except.error e →
      handleResponse cfg encode pub k p = ([Action.logSerErr e], k)) ∧
    (∀ out, encode p = Except.ok out → 0 < out.length →
      publishes (handleResponse cfg encode pub k p).fst =
        [(cfg.natsURL, cfg.topic, out, 5)]) := by
  constructor
  · intro e he
    unfold handleResponse
    rw [he]
  · intro out ho hl
    rw [publishes_handleResponse, ho]
    simp [hl]

theorem claim7_encoding_paths_witness :
    handleResponse cfg0 encodeErr pubOk 0 "payload" =
      ([Action.logSerErr "marshal error"], 0) ∧
    publishes (handleResponse cfg0 encodeOk pubOk 0 "payload").fst =
      [(cfg0.natsURL, cfg0.topic, "payload", 5)] :=
  ⟨(claim7_encoding_paths cfg0 encodeErr pubOk 0 "payload").1
      "marshal error" rfl,
    (claim7_encoding_paths cfg0 encodeOk pubOk 0 "payload").2
      "payload" rfl (by decide)⟩

/-- Claim C8: a SubscriptionError event adds exactly one log line with
the subscription name and cause to the trace, leaves the loop status
whatever the remaining events make it (so it never terminates the
loop by itself), and issues no other action — in particular no
resubscription. -/
theorem claim8_subErr_logged (cfg : Config)
    (encode : String → Except String String) (pub : Nat → Option String)
    (k : Nat) (n c : String) (rest : List LoopEvent) :
    collectLoop cfg encode pub (LoopEvent.subErr n c :: rest) k =
      (Action.logSubErr n c :: (collectLoop cfg encode pub rest k).fst,
        (collectLoop cfg encode pub rest k).snd) ∧
    (collectLoop cfg encode pub [LoopEvent.subErr n c] k).snd =
      LoopResult.running :=
  ⟨rfl, rfl⟩

/-- Claim C9: an Update that encodes successfully to the empty string
is skipped silently — the loop body emits no action for it, attempts no
publish, and the loop behaves exactly as if the event had not been
delivered. -/
theorem claim9_empty_encoding_skipped (cfg : Config)
    (encode : String → Except String String) (pub : Nat → Option String)
    (k : Nat) (p : String) (rest : List LoopEvent)
    (h : encode p = Except.ok "") :
    handleResponse cfg encode pub k p = ([], k) ∧
    collectLoop cfg encode pub (LoopEvent.response p :: rest) k =
      collectLoop cfg encode pub rest k := by
  have hh : handleResponse cfg encode pub k p = ([], k) := by
    unfold handleResponse
    rw [h]
    simp
  refine ⟨hh, ?_⟩
  have h1 : collectLoop cfg encode pub (LoopEvent.response p :: rest) k =
      ((handleResponse cfg encode pub k p).fst ++
        (collectLoop cfg encode pub rest
          (handleResponse cfg encode pub k p).snd).fst,
        (collectLoop cfg encode pub rest
          (handleResponse cfg encode pub k p).snd).snd) := rfl
  rw [h1, hh]
  simp

theorem claim9_empty_encoding_skipped_witness :
    handleResponse cfg0 encodeEmpty pubOk 0 "payload" = ([], 0) ∧
    collectLoop cfg0 encodeEmpty pubOk
      [LoopEvent.response "payload", LoopEvent.subErr "sub1" "eof"] 0 =
      collectLoop cfg0 encodeEmpty pubOk [LoopEvent.subErr "sub1" "eof"] 0 :=
  claim9_empty_encoding_skipped cfg0 encodeEmpty pubOk 0 "payload"
    [LoopEvent.subErr "sub1" "eof"] rfl

/-- Claim C10: calling collectTelemetry with a nil TelemetryTarget, or
one whose inner Target is nil, returns the initialization error at once
with an empty trace — no GNMI client creation, no subscribe and no
publish. -/
theorem claim10_nil_target_guard (cfg : Config)
    (encode : String → Except String String) (pub : Nat → Option String)
    (env : SetupEnv) (tt : Option TelemetryTarget)
    (h : tt = none ∨ tt = some (TelemetryTarget.mk none)) :
    collectTelemetry cfg encode pub env tt =
      ([], Except.error
        "telemetry target or its internal target is not properly initialized")
    := by
  rcases h with h | h <;> subst h <;> rfl

theorem claim10_nil_target_guard_witness :
    collectTelemetry cfg0 encodeOk pubOk envRun none =
      ([], Except.error
        "telemetry target or its internal target is not properly initialized")
    :=
  claim10_nil_target_guard cfg0 encodeOk pubOk envRun none (Or.inl rfl)

end GnmiNats
